import Mathlib

/-!
Verification development for the miner testing sandbox frontend controller
(file src/api/static/js/post-process-2.js) and the scoring engine of the
specification.

Modelling conventions:
- JS strings are Lean `String`; a possibly-absent JS value (field access on
  an object that may lack the field, or a value that may be `undefined`) is
  `Option`-valued.
- The host side of one `executeInSandbox` call is a small state machine:
  the deadline timer, the installed `message` listener, the transient blob
  object URL and the promise settlement are explicit state.  Time is an
  explicit `Nat` timestamp in milliseconds; the `setTimeout` of the source
  is modelled as an event that fires at exactly the configured delay unless
  the timer was cleared first.
- Messages posted by the isolated iframe context arrive as `MessageEvent`s
  whose `source` field is the numeric identity of the posting window; the
  window created for the current call has a fixed identity `w`.
-/

namespace DfpProxy

/-- Code points removed by JS `String.prototype.trim` (the WhiteSpace and
LineTerminator productions of ECMA-262). -/
def jsWhitespaceCodes : List Nat :=
  [0x9, 0xA, 0xB, 0xC, 0xD, 0x20, 0xA0, 0x1680,
   0x2000, 0x2001, 0x2002, 0x2003, 0x2004, 0x2005, 0x2006, 0x2007,
   0x2008, 0x2009, 0x200A, 0x2028, 0x2029, 0x202F, 0x205F, 0x3000, 0xFEFF]

def jsWhitespaceChar (c : Char) : Bool :=
  jsWhitespaceCodes.contains c.toNat

/-- Model of JS `String.prototype.trim`: drop leading and trailing
whitespace characters. -/
def jsTrim (s : String) : String :=
  String.mk (((s.data.dropWhile jsWhitespaceChar).reverse.dropWhile jsWhitespaceChar).reverse)

/-- JS truthiness of a possibly-absent string: `undefined` and the empty
string are falsy, every other string is truthy. -/
def truthyStr : Option String → Bool
  | none => false
  | some s => s != ""

/-- The data object of a posted message, as read by the host listener:
`event.data.type`, `event.data.error`, `event.data.hash` (absent fields are
`none`). -/
structure MsgData where
  msgType : Option String
  error : Option String
  hash : Option String
deriving DecidableEq

/-- A `message` event as seen by the host listener: the identity of the
posting window and the (possibly null) data object. -/
structure MessageEvent where
  source : Nat
  data : Option MsgData
deriving DecidableEq

/-- The settlement of the promise returned by `executeInSandbox`:
`resolve(event.data.hash)` (the hash may be absent) or `reject(new Error(msg))`. -/
inductive Outcome
  | ok (hash : Option String)
  | rejected (msg : String)
deriving DecidableEq

/-- Host-side state of one `executeInSandbox` call: whether the deadline
timer is still pending, whether the `message` listener is installed, whether
the blob object URL created for the iframe is still alive (never revoked in
the source), the promise settlement, and the time at which it settled. -/
structure TState where
  timerActive : Bool
  listenerInstalled : Bool
  blobUrlAlive : Bool
  outcome : Option Outcome
  settledAt : Option Nat
deriving DecidableEq

/-- State right after the promise executor ran: timer set (line 73), listener
installed (line 94), blob URL created (lines 153-154), promise pending. -/
def initialTState : TState :=
  { timerActive := true, listenerInstalled := true, blobUrlAlive := true,
    outcome := none, settledAt := none }

/-- `resolve`/`reject` semantics of a JS promise: only the first settlement
takes effect. -/
def settle (t : Nat) (o : Outcome) (s : TState) : TState :=
  match s.outcome with
  | some _ => s
  | none => { s with outcome := some o, settledAt := some t }

/-- The message rejected by the timeout callback (line 74). -/
def timeoutMsg : String := "Script execution timed out (5s limit)"

/-- The deadline passed to `setTimeout` (line 75). -/
def deadlineMs : Nat := 5000

/-- Tail of the listener body after `clearTimeout` and `removeEventListener`
(lines 85-91): settle the promise only when the data object carries
`type === 'fingerprint-result'`; reject when `event.data.error` is truthy,
resolve with `event.data.hash` otherwise. -/
def handleAccepted (t : Nat) (data : Option MsgData) (s1 : TState) : TState :=
  match data with
  | some d =>
      if d.msgType = some "fingerprint-result" then
        if truthyStr d.error then settle t (.rejected (d.error.getD "")) s1
        else settle t (.ok d.hash) s1
      else s1
  | none => s1

/-- The listener body `handleMessage` (lines 78-92), run at time `t`:
return immediately when the source is not the sandbox window `w`; otherwise
clear the timer, remove the listener, and continue with `handleAccepted`. -/
def handleMessageAt (w t : Nat) (ev : MessageEvent) (s : TState) : TState :=
  if ev.source = w then
    handleAccepted t ev.data { s with timerActive := false, listenerInstalled := false }
  else s

/-- Event dispatch: the listener body runs only while the listener is
installed. -/
def dispatchAt (w t : Nat) (ev : MessageEvent) (s : TState) : TState :=
  if s.listenerInstalled then handleMessageAt w t ev s else s

/-- The timeout callback (lines 73-75), run at time `t`: it fires only when
the timer was not cleared, and rejects the promise; it does not remove the
message listener and does not revoke the blob URL. -/
def fireTimeoutAt (t : Nat) (s : TState) : TState :=
  if s.timerActive then settle t (.rejected timeoutMsg) { s with timerActive := false }
  else s

/-- Dispatch a time-ordered list of message events. -/
def runEvents (w : Nat) (evs : List (Nat × MessageEvent)) (s : TState) : TState :=
  evs.foldl (fun acc p => dispatchAt w p.1 p.2 acc) s

/-- One complete run of `executeInSandbox` (lines 71-156), given the
time-ordered trace `msgs` of message events delivered to the host window:
events before the deadline are dispatched, then the timer fires at exactly
`deadlineMs` if still pending, then the remaining events are dispatched. -/
def executeInSandbox (w : Nat) (msgs : List (Nat × MessageEvent)) : TState :=
  let early := msgs.filter (fun p => decide (p.1 < deadlineMs))
  let late := msgs.filter (fun p => decide (¬ p.1 < deadlineMs))
  runEvents w late (fireTimeoutAt deadlineMs (runEvents w early initialTState))

/-- A well-formed result message as posted by the sandbox wrapper on the
success path (lines 132-135). -/
def genuineMsg (w : Nat) (h : String) : MessageEvent :=
  { source := w, data := some { msgType := some "fingerprint-result", error := none, hash := some h } }

/-- Behaviour of calling a global primitive inside the iframe realm: the
native behaviour, or a replacement installed by the guard script that throws
the given error message. -/
inductive JsCall
  | native
  | throwsErr (msg : String)
deriving DecidableEq

/-- The dynamic-code-evaluation bindings of the iframe realm. -/
structure SandboxGlobals where
  evalImpl : JsCall
  functionCtorImpl : JsCall
deriving DecidableEq

/-- The realm before the guard script runs: both primitives are native. -/
def defaultGlobals : SandboxGlobals := { evalImpl := .native, functionCtorImpl := .native }

/-- The head guard script of the sandbox page (lines 102-113): it replaces
`window.eval` with a function that throws, and touches nothing else among
the code-generation primitives. -/
def installGuards (g : SandboxGlobals) : SandboxGlobals :=
  { g with evalImpl := .throwsErr "eval() is not allowed" }

/-- Whether calling the named primitive in realm `g` fails by throwing. -/
def interceptedBy (g : SandboxGlobals) (p : String) : Bool :=
  if p = "eval" then
    match g.evalImpl with
    | .throwsErr _ => true
    | .native => false
  else if p = "Function" then
    match g.functionCtorImpl with
    | .throwsErr _ => true
    | .native => false
  else false

/-- From the wording of the specification (isolation requirement on dynamic
code evaluation): the code-generation primitives reachable from the
untrusted script.  Kept separate from the source-derived `installGuards` so
the two can be compared. -/
def specDynamicCodePrimitives : List String := ["eval", "Function"]

/-- A JS value as far as the `typeof result !== 'string'` check can tell. -/
inductive JsValue
  | str (s : String)
  | num (n : Int)
  | boolean (b : Bool)
  | undefined
  | nullv
  | object
deriving DecidableEq

def typeofIsString : JsValue → Bool
  | .str _ => true
  | _ => false

/-- What invoking the entry point does: its returned promise resolves with a
value, rejects with an error message, or never settles. -/
inductive EntryOutcome
  | resolves (v : JsValue)
  | rejects (msg : String)
  | neverSettles
deriving DecidableEq

/-- What the script left bound to the name `runFingerprinting`: a value that
is not a function, or a callable with the given behaviour. -/
inductive EntryDef
  | notCallable
  | callable (behavior : EntryOutcome)
deriving DecidableEq

/-- The observable effect of evaluating the untrusted script body: it throws
while running, or it completes leaving `runFingerprinting` absent, not
callable, or callable. -/
inductive ScriptExec
  | throwsDuringBody (msg : String)
  | completes (entry : Option EntryDef)
deriving DecidableEq

/-- Error message thrown at line 123 when the entry point is absent or not a
function. -/
def entryMissingMsg : String := "runFingerprinting() function not found in fingerprinter.js"

/-- Error message thrown at line 128 when the resolved value is not a
string. -/
def nonStringMsg : String := "runFingerprinting() must return a string"

/-- The body module script of the sandbox page (lines 116-148): run the
untrusted script, check that `runFingerprinting` is a function, invoke it,
check the resolved value is a string, and post exactly one result message to
the creator; errors on any of these paths are posted as
`{type: 'fingerprint-result', error: message}`.  Returns the data object
posted, or `none` when nothing is ever posted (entry point never settles). -/
def sandboxModule : ScriptExec → Option MsgData
  | .throwsDuringBody m =>
      some { msgType := some "fingerprint-result", error := some m, hash := none }
  | .completes none =>
      some { msgType := some "fingerprint-result", error := some entryMissingMsg, hash := none }
  | .completes (some .notCallable) =>
      some { msgType := some "fingerprint-result", error := some entryMissingMsg, hash := none }
  | .completes (some (.callable (.resolves v))) =>
      match v with
      | .str s => some { msgType := some "fingerprint-result", error := none, hash := some s }
      | _ => some { msgType := some "fingerprint-result", error := some nonStringMsg, hash := none }
  | .completes (some (.callable (.rejects m))) =>
      some { msgType := some "fingerprint-result", error := some m, hash := none }
  | .completes (some (.callable .neverSettles)) => none

/-- A whole run on a given script behaviour: the message the sandbox page
posts (if any) reaches the host listener at time `t`. -/
def runScriptAt (w t : Nat) (exec : ScriptExec) : TState :=
  match sandboxModule exec with
  | some d => executeInSandbox w [(t, { source := w, data := some d })]
  | none => executeInSandbox w []

/-- The error taxonomy of the specification (section 4.1). -/
inductive ErrorKind
  | EntryPointMissing
  | InvalidResultType
  | RuntimeError
  | ExecutionTimeout
deriving DecidableEq

/-- Classification of a rejection message into the kinds of the
specification: the two validation messages and the timeout message are fixed
strings of the source; every other message is an error captured from the
untrusted script. -/
def errorKindOf (msg : String) : ErrorKind :=
  if msg = entryMissingMsg then .EntryPointMissing
  else if msg = nonStringMsg then .InvalidResultType
  else if msg = timeoutMsg then .ExecutionTimeout
  else .RuntimeError

/-- The validated pair returned by `validateInputs` (line 53). -/
structure Inputs where
  sessionId : String
  deviceLabel : String
deriving DecidableEq

/-- Result of `validateInputs` (lines 40-54): `null` plus an error status
message, or the trimmed pair. -/
inductive ValidationResult
  | failure (statusMsg : String)
  | success (inputs : Inputs)
deriving DecidableEq

/-- `validateInputs` (lines 40-54): trim both fields, reject when either
trims to the empty string (JS falsiness of a string), otherwise return the
trimmed values. -/
def validateInputs (rawSession rawDevice : String) : ValidationResult :=
  let sessionId := jsTrim rawSession
  let deviceLabel := jsTrim rawDevice
  if sessionId = "" then .failure "Please enter a Session ID"
  else if deviceLabel = "" then .failure "Please enter a Device Label"
  else .success { sessionId := sessionId, deviceLabel := deviceLabel }

/-- The settled view of the sandbox promise as awaited by `handleSubmit`. -/
inductive SandboxSettled
  | ok (hash : Option String)
  | rejected (msg : String)
  | pending
deriving DecidableEq

/-- Externally visible operations of `handleSubmit`, in order: a validation
or error status, the fetch of the script, the sandbox run, the POST of the
record to the store, the success status. -/
inductive Action
  | showError (msg : String)
  | fetchScript
  | runSandbox
  | submitRequest (sessionId deviceLabel : String) (hash : Option String)
  | showSuccess
deriving DecidableEq

/-- `handleSubmit` (lines 239-272) as the ordered list of its externally
visible operations, parameterised by the environment responses: whether the
script fetch succeeds, how the sandbox promise settles, and whether the
submission POST reports an error message.  Validation failure short-circuits
before any fetch, sandbox run or submission. -/
def handleSubmit (isRunning : Bool) (rawSession rawDevice : String)
    (fetchOk : Bool) (sandboxRes : SandboxSettled) (submitErr : Option String) :
    List Action :=
  if isRunning then []
  else
    match validateInputs rawSession rawDevice with
    | .failure m => [.showError m]
    | .success i =>
        if fetchOk then
          Action.fetchScript :: Action.runSandbox ::
            (match sandboxRes with
             | .pending => []
             | .rejected m => [.showError m]
             | .ok h =>
                 Action.submitRequest i.sessionId i.deviceLabel h ::
                   (match submitErr with
                    | none => [.showSuccess]
                    | some m => [.showError m]))
        else [Action.fetchScript, Action.showError "Failed to load fingerprinter.js"]

/-- Externally visible operations of `handleResults`. -/
inductive ResultsAction
  | showErrorR (msg : String)
  | fetchResultsReq (sessionId : String)
deriving DecidableEq

/-- `handleResults` (lines 277-300): trim the session id, reject when empty,
otherwise query the results endpoint with the trimmed value. -/
def handleResults (rawSession : String) : List ResultsAction :=
  let sessionId := jsTrim rawSession
  if sessionId = "" then [.showErrorR "Please enter a Session ID first"]
  else [.fetchResultsReq sessionId]

/-- A stored record of the session, as appended by the store. -/
structure DeviceRecord where
  device_label : String
  fingerprint_hash : String
deriving DecidableEq

/-- Modelled from the spec: the ScoringEngine (section 4.2) is not under
src/ (only its documentation is); the distinct device labels of the record
sequence, in first-appearance order. -/
def deviceLabels (recs : List DeviceRecord) : List String :=
  (recs.map (fun r => r.device_label)).dedup

/-- Modelled from the spec: the hash set of a device, step 1 of the
algorithm. -/
def hashesOf (recs : List DeviceRecord) (dev : String) : List String :=
  ((recs.filter (fun r => r.device_label = dev)).map (fun r => r.fingerprint_hash)).dedup

/-- Modelled from the spec: fragmentation score per device by the size of
its hash set, step 2: 1 gives 1.0, 2 gives 0.7, 3 or more gives 0.0. -/
def fragmentationScore (n : Nat) : ℚ :=
  if n = 1 then 1 else if n = 2 then 7/10 else 0

/-- Modelled from the spec: the distinct device labels that ever submitted a
given hash, step 3. -/
def devicesForHash (recs : List DeviceRecord) (h : String) : List String :=
  ((recs.filter (fun r => r.fingerprint_hash = h)).map (fun r => r.device_label)).dedup

/-- Modelled from the spec: the largest number of other devices sharing one
of the hashes of the device, step 3. -/
def overlapDevices (recs : List DeviceRecord) (dev : String) : Nat :=
  ((hashesOf recs dev).map (fun h => (devicesForHash recs h).length - 1)).foldr max 0

def clamp01 (q : ℚ) : ℚ := max 0 (min 1 q)

/-- Modelled from the spec: final point value of a device, steps 4 and 5:
the collision override forces 0 when at least two other devices share a
hash, one sharing device subtracts 0.25 floored at 0, otherwise the
fragmentation score stands; the result is clamped to the unit interval. -/
def devicePoints (recs : List DeviceRecord) (dev : String) : ℚ :=
  let f := fragmentationScore (hashesOf recs dev).length
  let o := overlapDevices recs dev
  clamp01 (if 2 ≤ o then 0 else if o = 1 then max (f - 1/4) 0 else f)

/-- Modelled from the spec: session score, step 6: the device points summed
over the distinct devices, divided by their number; defined as 0 for zero
devices. -/
def sessionScore (recs : List DeviceRecord) : ℚ :=
  let ds := deviceLabels recs
  if ds.length = 0 then 0
  else ((ds.map (devicePoints recs)).sum) / (ds.length : ℚ)

/-! Helper lemmas shared by the claim theorems. -/

theorem settle_timerActive (t : Nat) (o : Outcome) (s : TState) :
    (settle t o s).timerActive = s.timerActive := by
  unfold settle
  cases s.outcome <;> rfl

theorem settle_listenerInstalled (t : Nat) (o : Outcome) (s : TState) :
    (settle t o s).listenerInstalled = s.listenerInstalled := by
  unfold settle
  cases s.outcome <;> rfl

theorem settle_blobUrlAlive (t : Nat) (o : Outcome) (s : TState) :
    (settle t o s).blobUrlAlive = s.blobUrlAlive := by
  unfold settle
  cases s.outcome <;> rfl

theorem handleAccepted_timerActive (t : Nat) (data : Option MsgData) (s1 : TState) :
    (handleAccepted t data s1).timerActive = s1.timerActive := by
  unfold handleAccepted
  cases data with
  | none => rfl
  | some d =>
      by_cases h1 : d.msgType = some "fingerprint-result"
      · by_cases h2 : truthyStr d.error <;> simp [h1, h2, settle_timerActive]
      · simp [h1]

theorem handleAccepted_listenerInstalled (t : Nat) (data : Option MsgData) (s1 : TState) :
    (handleAccepted t data s1).listenerInstalled = s1.listenerInstalled := by
  unfold handleAccepted
  cases data with
  | none => rfl
  | some d =>
      by_cases h1 : d.msgType = some "fingerprint-result"
      · by_cases h2 : truthyStr d.error <;> simp [h1, h2, settle_listenerInstalled]
      · simp [h1]

theorem handleAccepted_blobUrlAlive (t : Nat) (data : Option MsgData) (s1 : TState) :
    (handleAccepted t data s1).blobUrlAlive = s1.blobUrlAlive := by
  unfold handleAccepted
  cases data with
  | none => rfl
  | some d =>
      by_cases h1 : d.msgType = some "fingerprint-result"
      · by_cases h2 : truthyStr d.error <;> simp [h1, h2, settle_blobUrlAlive]
      · simp [h1]

theorem handleMessageAt_blobUrlAlive (w t : Nat) (ev : MessageEvent) (s : TState) :
    (handleMessageAt w t ev s).blobUrlAlive = s.blobUrlAlive := by
  unfold handleMessageAt
  by_cases h : ev.source = w <;> simp [h, handleAccepted_blobUrlAlive]

theorem dispatchAt_blobUrlAlive (w t : Nat) (ev : MessageEvent) (s : TState) :
    (dispatchAt w t ev s).blobUrlAlive = s.blobUrlAlive := by
  unfold dispatchAt
  by_cases h : s.listenerInstalled <;> simp [h, handleMessageAt_blobUrlAlive]

theorem fireTimeoutAt_blobUrlAlive (t : Nat) (s : TState) :
    (fireTimeoutAt t s).blobUrlAlive = s.blobUrlAlive := by
  unfold fireTimeoutAt
  by_cases h : s.timerActive <;> simp [h, settle_blobUrlAlive]

theorem runEvents_blobUrlAlive (w : Nat) (evs : List (Nat × MessageEvent)) :
    ∀ s : TState, (runEvents w evs s).blobUrlAlive = s.blobUrlAlive := by
  induction evs with
  | nil => intro s; rfl
  | cons a l ih =>
      intro s
      show (runEvents w l (dispatchAt w a.1 a.2 s)).blobUrlAlive = s.blobUrlAlive
      rw [ih (dispatchAt w a.1 a.2 s), dispatchAt_blobUrlAlive]

theorem executeInSandbox_blobUrlAlive (w : Nat) (msgs : List (Nat × MessageEvent)) :
    (executeInSandbox w msgs).blobUrlAlive = true := by
  simp only [executeInSandbox]
  rw [runEvents_blobUrlAlive, fireTimeoutAt_blobUrlAlive, runEvents_blobUrlAlive]
  rfl

theorem dispatch_foreign (w t : Nat) (ev : MessageEvent) (s : TState)
    (h : ev.source ≠ w) : dispatchAt w t ev s = s := by
  unfold dispatchAt handleMessageAt
  by_cases hl : s.listenerInstalled <;> simp [hl, h]

theorem runEvents_foreign (w : Nat) (evs : List (Nat × MessageEvent)) :
    ∀ s : TState, (∀ p ∈ evs, p.2.source ≠ w) → runEvents w evs s = s := by
  induction evs with
  | nil => intro s _; rfl
  | cons a l ih =>
      intro s h
      show runEvents w l (dispatchAt w a.1 a.2 s) = s
      rw [dispatch_foreign w a.1 a.2 s (h a (List.mem_cons_self a l))]
      exact ih s (fun p hp => h p (List.mem_cons_of_mem a hp))

theorem fireTimeout_cleared (t : Nat) (s : TState) (h : s.timerActive = false) :
    fireTimeoutAt t s = s := by
  unfold fireTimeoutAt
  simp [h]

theorem core_accept (w t : Nat) (d : MsgData)
    (hty : d.msgType = some "fingerprint-result") :
    dispatchAt w t { source := w, data := some d } initialTState =
      { timerActive := false, listenerInstalled := false, blobUrlAlive := true,
        outcome := some (if truthyStr d.error then Outcome.rejected (d.error.getD "")
                         else Outcome.ok d.hash),
        settledAt := some t } := by
  unfold dispatchAt initialTState handleMessageAt handleAccepted settle
  by_cases h2 : truthyStr d.error <;> simp [hty, h2]

theorem run_single (w t : Nat) (d : MsgData) (ht : t < deadlineMs)
    (hty : d.msgType = some "fingerprint-result") :
    executeInSandbox w [(t, { source := w, data := some d })] =
      { timerActive := false, listenerInstalled := false, blobUrlAlive := true,
        outcome := some (if truthyStr d.error then Outcome.rejected (d.error.getD "")
                         else Outcome.ok d.hash),
        settledAt := some t } := by
  simp only [executeInSandbox]
  have hearly : [(t, ({ source := w, data := some d } : MessageEvent))].filter
      (fun p => decide (p.1 < deadlineMs)) =
      [(t, ({ source := w, data := some d } : MessageEvent))] := by
    simp [List.filter_cons, ht]
  have hlate : [(t, ({ source := w, data := some d } : MessageEvent))].filter
      (fun p => decide (¬ p.1 < deadlineMs)) = [] := by
    simp [List.filter_cons, ht]
  rw [hearly, hlate]
  show fireTimeoutAt deadlineMs
      (dispatchAt w t { source := w, data := some d } initialTState) = _
  rw [core_accept w t d hty]
  exact fireTimeout_cleared _ _ rfl

theorem jsTrim_eq_empty (s : String) (h : s.data.all jsWhitespaceChar = true) :
    jsTrim s = "" := by
  have h1 : s.data.dropWhile jsWhitespaceChar = [] :=
    List.dropWhile_eq_nil_iff.mpr (fun x hx => by
      have := List.all_eq_true.mp h x hx
      exact this)
  unfold jsTrim
  rw [h1]
  rfl

theorem list_sum_nonneg_of_mem (l : List String) (f : String → ℚ)
    (h : ∀ x ∈ l, 0 ≤ f x) : 0 ≤ (l.map f).sum := by
  induction l with
  | nil => simp
  | cons a l ih =>
      simp only [List.map_cons, List.sum_cons]
      have ha := h a (List.mem_cons_self a l)
      have hl := ih (fun x hx => h x (List.mem_cons_of_mem a hx))
      linarith

theorem list_sum_le_length (l : List String) (f : String → ℚ)
    (h : ∀ x ∈ l, f x ≤ 1) : (l.map f).sum ≤ (l.length : ℚ) := by
  induction l with
  | nil => simp
  | cons a l ih =>
      simp only [List.map_cons, List.sum_cons, List.length_cons]
      have ha := h a (List.mem_cons_self a l)
      have hl := ih (fun x hx => h x (List.mem_cons_of_mem a hx))
      push_cast
      linarith

theorem clamp01_nonneg (q : ℚ) : 0 ≤ clamp01 q := le_max_left 0 _

theorem clamp01_le_one (q : ℚ) : clamp01 q ≤ 1 :=
  max_le (by norm_num) (min_le_left 1 q)

theorem devicePoints_nonneg (recs : List DeviceRecord) (dev : String) :
    0 ≤ devicePoints recs dev := by
  unfold devicePoints
  exact clamp01_nonneg _

theorem devicePoints_le_one (recs : List DeviceRecord) (dev : String) :
    devicePoints recs dev ≤ 1 := by
  unfold devicePoints
  exact clamp01_le_one _

theorem runScript_posted (w t : Nat) (exec : ScriptExec) (d : MsgData)
    (hd : sandboxModule exec = some d) (ht : t < deadlineMs)
    (hty : d.msgType = some "fingerprint-result") :
    runScriptAt w t exec =
      { timerActive := false, listenerInstalled := false, blobUrlAlive := true,
        outcome := some (if truthyStr d.error then Outcome.rejected (d.error.getD "")
                         else Outcome.ok d.hash),
        settledAt := some t } := by
  unfold runScriptAt
  rw [hd]
  exact run_single w t d ht hty

/-! Claim theorems. -/

/-- C1: the claim that every run delivers exactly one outcome fails on the
code.  When the sandbox context posts a message whose data lacks
`type = 'fingerprint-result'`, the listener clears the deadline timer and
removes itself before the type check, then settles nothing: the run ends
with the promise forever pending, the timer cleared and the listener gone —
zero outcomes — and even a genuine result message arriving later is ignored. -/
theorem C1_no_outcome_on_stray_message :
    (executeInSandbox 1
      [(100, { source := 1, data := some { msgType := some "other", error := none, hash := none } })]).outcome = none ∧
    (executeInSandbox 1
      [(100, { source := 1, data := some { msgType := some "other", error := none, hash := none } })]).timerActive = false ∧
    (executeInSandbox 1
      [(100, { source := 1, data := some { msgType := some "other", error := none, hash := none } })]).listenerInstalled = false ∧
    (executeInSandbox 1
      [(100, { source := 1, data := some { msgType := some "other", error := none, hash := none } }),
       (200, genuineMsg 1 "h")]).outcome = none := by
  decide

/-- C2: a message event whose source is not the sandbox window is a strict
no-op for the run state (timer kept, listener kept, promise untouched), and
a later genuine message from the sandbox window still resolves the call with
its hash. -/
theorem C2_source_filtering (w t t1 t2 : Nat) (ev : MessageEvent) (s : TState)
    (h : String) (hsrc : ev.source ≠ w) (h1 : t1 < deadlineMs) (h2 : t2 < deadlineMs) :
    dispatchAt w t ev s = s ∧
    (executeInSandbox w [(t1, ev), (t2, genuineMsg w h)]).outcome = some (.ok (some h)) := by
  refine ⟨dispatch_foreign w t ev s hsrc, ?_⟩
  simp only [executeInSandbox]
  have hearly : [(t1, ev), (t2, genuineMsg w h)].filter
      (fun p => decide (p.1 < deadlineMs)) = [(t1, ev), (t2, genuineMsg w h)] := by
    simp [List.filter_cons, h1, h2]
  have hlate : [(t1, ev), (t2, genuineMsg w h)].filter
      (fun p => decide (¬ p.1 < deadlineMs)) = [] := by
    simp [List.filter_cons, h1, h2]
  rw [hearly, hlate]
  show (fireTimeoutAt deadlineMs
      (dispatchAt w t2 (genuineMsg w h) (dispatchAt w t1 ev initialTState))).outcome = _
  rw [dispatch_foreign w t1 ev initialTState hsrc]
  rw [show genuineMsg w h =
        { source := w,
          data := some { msgType := some "fingerprint-result", error := none, hash := some h } }
      from rfl]
  rw [core_accept w t2 { msgType := some "fingerprint-result", error := none, hash := some h } rfl]
  rw [fireTimeout_cleared _ _ rfl]
  rfl

/-- C2 witness: a concrete foreign message (source 2, sandbox window 1) is a
no-op and a genuine message then resolves the run. -/
theorem C2_source_filtering_witness :
    dispatchAt 1 0 { source := 2, data := none } initialTState = initialTState ∧
    (executeInSandbox 1 [(10, { source := 2, data := none }), (20, genuineMsg 1 "h")]).outcome =
      some (.ok (some "h")) := by
  have h := C2_source_filtering 1 0 10 20 { source := 2, data := none } initialTState "h"
    (by decide) (by decide) (by decide)
  exact ⟨h.1, h.2⟩

/-- C3 counterexample: the Function constructor is among the
dynamic-code-evaluation primitives the claim quantifies over, yet the guard
script leaves it native, so invoking it in the sandbox realm does not
fail. -/
theorem C3_counterexample_function_ctor_not_intercepted :
    "Function" ∈ specDynamicCodePrimitives ∧
    interceptedBy (installGuards defaultGlobals) "Function" = false := by
  decide

/-- C3 amended: before the script body runs the guard script replaces
`eval` with a function that throws, and this is the only dynamic-code
primitive it intercepts — the Function constructor is left untouched. -/
theorem C3_eval_only_intercepted (g : SandboxGlobals) :
    (installGuards g).evalImpl = .throwsErr "eval() is not allowed" ∧
    (installGuards g).functionCtorImpl = g.functionCtorImpl ∧
    interceptedBy (installGuards g) "eval" = true := by
  exact ⟨rfl, rfl, rfl⟩

/-- C5 counterexample: the run with no message ends in the terminal timeout
state with the message listener still installed and the blob object URL
still alive — the timeout exit path releases neither. -/
theorem C5_counterexample_timeout_path_leaks :
    (executeInSandbox 1 []).outcome = some (.rejected timeoutMsg) ∧
    (executeInSandbox 1 []).listenerInstalled = true ∧
    (executeInSandbox 1 []).blobUrlAlive = true := by
  decide

/-- C5 amended: on the message exit path the listener body cancels the timer
and removes the listener, but the blob object URL survives every run, and
the timeout exit path leaves the listener installed. -/
theorem C5_resource_paths (w : Nat) (msgs : List (Nat × MessageEvent)) (t : Nat)
    (ev : MessageEvent) (s : TState) (hsrc : ev.source = w)
    (hl : s.listenerInstalled = true) :
    (executeInSandbox w msgs).blobUrlAlive = true ∧
    (dispatchAt w t ev s).timerActive = false ∧
    (dispatchAt w t ev s).listenerInstalled = false ∧
    (executeInSandbox w []).listenerInstalled = true ∧
    (executeInSandbox w []).outcome = some (.rejected timeoutMsg) := by
  refine ⟨executeInSandbox_blobUrlAlive w msgs, ?_, ?_, rfl, rfl⟩
  · unfold dispatchAt handleMessageAt
    simp [hl, hsrc, handleAccepted_timerActive]
  · unfold dispatchAt handleMessageAt
    simp [hl, hsrc, handleAccepted_listenerInstalled]

/-- C5 witness: the amended statement at a concrete sandbox message and the
empty trace. -/
theorem C5_resource_paths_witness :
    (dispatchAt 1 0 { source := 1, data := none } initialTState).timerActive = false ∧
    (dispatchAt 1 0 { source := 1, data := none } initialTState).listenerInstalled = false ∧
    (executeInSandbox 1 []).blobUrlAlive = true := by
  have h := C5_resource_paths 1 [] 0 { source := 1, data := none } initialTState rfl rfl
  exact ⟨h.2.1, h.2.2.1, h.1⟩

/-- C6: a script that completes without leaving a callable
`runFingerprinting` makes the run reject with the entry-point message, whose
kind is EntryPointMissing and no other; a script whose entry point resolves
with a non-string value makes the run reject with the result-type message,
whose kind is InvalidResultType and no other (the posted message is assumed
delivered before the deadline). -/
theorem C6_error_kinds (w t : Nat) (v : JsValue) (ht : t < deadlineMs)
    (hv : typeofIsString v = false) :
    (runScriptAt w t (.completes none)).outcome = some (.rejected entryMissingMsg) ∧
    (runScriptAt w t (.completes (some .notCallable))).outcome =
      some (.rejected entryMissingMsg) ∧
    errorKindOf entryMissingMsg = .EntryPointMissing ∧
    (runScriptAt w t (.completes (some (.callable (.resolves v))))).outcome =
      some (.rejected nonStringMsg) ∧
    errorKindOf nonStringMsg = .InvalidResultType := by
  refine ⟨?_, ?_, by decide, ?_, by decide⟩
  · rw [runScript_posted w t (.completes none)
      { msgType := some "fingerprint-result", error := some entryMissingMsg, hash := none }
      rfl ht rfl]
    rfl
  · rw [runScript_posted w t (.completes (some .notCallable))
      { msgType := some "fingerprint-result", error := some entryMissingMsg, hash := none }
      rfl ht rfl]
    rfl
  · cases v with
    | str s => simp [typeofIsString] at hv
    | num n =>
        rw [runScript_posted w t (.completes (some (.callable (.resolves (.num n)))))
          { msgType := some "fingerprint-result", error := some nonStringMsg, hash := none }
          rfl ht rfl]
        rfl
    | boolean b =>
        rw [runScript_posted w t (.completes (some (.callable (.resolves (.boolean b)))))
          { msgType := some "fingerprint-result", error := some nonStringMsg, hash := none }
          rfl ht rfl]
        rfl
    | undefined =>
        rw [runScript_posted w t (.completes (some (.callable (.resolves .undefined))))
          { msgType := some "fingerprint-result", error := some nonStringMsg, hash := none }
          rfl ht rfl]
        rfl
    | nullv =>
        rw [runScript_posted w t (.completes (some (.callable (.resolves .nullv))))
          { msgType := some "fingerprint-result", error := some nonStringMsg, hash := none }
          rfl ht rfl]
        rfl
    | object =>
        rw [runScript_posted w t (.completes (some (.callable (.resolves .object))))
          { msgType := some "fingerprint-result", error := some nonStringMsg, hash := none }
          rfl ht rfl]
        rfl

/-- C6 witness: the kinds at a concrete arrival time and a concrete
non-string value. -/
theorem C6_error_kinds_witness :
    (runScriptAt 1 0 (.completes none)).outcome = some (.rejected entryMissingMsg) ∧
    (runScriptAt 1 0 (.completes (some (.callable (.resolves .undefined))))).outcome =
      some (.rejected nonStringMsg) := by
  have h := C6_error_kinds 1 0 .undefined (by decide) (by decide)
  exact ⟨h.1, h.2.2.2.1⟩

/-- C7 counterexample: a script whose entry point never settles but whose
body posts one stray message before the deadline ends the run with no
outcome at all — in particular ExecutionTimeout never fires at the
deadline. -/
theorem C7_counterexample_stray_clears_deadline :
    (executeInSandbox 1
      [(42, { source := 1, data := some { msgType := some "x", error := none, hash := none } })]).outcome = none ∧
    (executeInSandbox 1
      [(42, { source := 1, data := some { msgType := some "x", error := none, hash := none } })]).settledAt = none := by
  decide

/-- C7 amended: for a run in which the sandbox context sends nothing (the
entry point never settles and the body posts no message — foreign messages
may still arrive), the run rejects with the timeout message at exactly the
fixed default deadline of 5000 ms, not earlier and not later. -/
theorem C7_timeout_at_deadline (w : Nat) (msgs : List (Nat × MessageEvent))
    (hall : ∀ p ∈ msgs, p.2.source ≠ w) :
    (executeInSandbox w msgs).outcome = some (.rejected timeoutMsg) ∧
    (executeInSandbox w msgs).settledAt = some deadlineMs ∧
    deadlineMs = 5000 := by
  have hE : ∀ p ∈ msgs.filter (fun p => decide (p.1 < deadlineMs)), p.2.source ≠ w :=
    fun p hp => hall p (List.mem_of_mem_filter hp)
  have hL : ∀ p ∈ msgs.filter (fun p => decide (¬ p.1 < deadlineMs)), p.2.source ≠ w :=
    fun p hp => hall p (List.mem_of_mem_filter hp)
  simp only [executeInSandbox]
  rw [runEvents_foreign w _ initialTState hE]
  have hfire : fireTimeoutAt deadlineMs initialTState =
      { timerActive := false, listenerInstalled := true, blobUrlAlive := true,
        outcome := some (.rejected timeoutMsg), settledAt := some deadlineMs } := rfl
  rw [hfire, runEvents_foreign w _ _ hL]
  exact ⟨rfl, rfl, rfl⟩

/-- C7 witness: the amended statement on a concrete trace holding only one
foreign message. -/
theorem C7_timeout_at_deadline_witness :
    (executeInSandbox 1 [(10, { source := 2, data := none })]).outcome =
      some (.rejected timeoutMsg) ∧
    (executeInSandbox 1 [(10, { source := 2, data := none })]).settledAt = some deadlineMs := by
  have h := C7_timeout_at_deadline 1 [(10, { source := 2, data := none })] (by decide)
  exact ⟨h.1, h.2.1⟩

/-- C8: when either field trims to the empty string, `handleSubmit` stops at
validation: the validation failure status is shown, the sandbox is not run
and no submission request is made. -/
theorem C8_validation_gate (rawSession rawDevice : String) (fetchOk : Bool)
    (sandboxRes : SandboxSettled) (submitErr : Option String)
    (h : jsTrim rawSession = "" ∨ jsTrim rawDevice = "") :
    validateInputs rawSession rawDevice =
      .failure (if jsTrim rawSession = "" then "Please enter a Session ID"
                else "Please enter a Device Label") ∧
    handleSubmit false rawSession rawDevice fetchOk sandboxRes submitErr =
      [.showError (if jsTrim rawSession = "" then "Please enter a Session ID"
                   else "Please enter a Device Label")] ∧
    Action.runSandbox ∉ handleSubmit false rawSession rawDevice fetchOk sandboxRes submitErr ∧
    ∀ sid dl hh, Action.submitRequest sid dl hh ∉
      handleSubmit false rawSession rawDevice fetchOk sandboxRes submitErr := by
  by_cases hs : jsTrim rawSession = ""
  · simp [validateInputs, handleSubmit, hs]
  · have hd : jsTrim rawDevice = "" := h.resolve_left hs
    simp [validateInputs, handleSubmit, hs, hd]

/-- C8 witness: a whitespace-only session id is rejected with the validation
status and produces no sandbox run and no submission. -/
theorem C8_validation_gate_witness :
    handleSubmit false " " "dev" true .pending none = [.showError "Please enter a Session ID"] ∧
    Action.runSandbox ∉ handleSubmit false " " "dev" true .pending none := by
  have h := C8_validation_gate " " "dev" true .pending none (Or.inl (by decide))
  have h2 := h.2.1
  rw [if_pos (show jsTrim " " = "" by decide)] at h2
  exact ⟨h2, h.2.2.1⟩

/-- C9: for every record sequence the session score lies in the unit
interval, and the empty sequence scores 0 rather than failing. -/
theorem C9_score_bounds (recs : List DeviceRecord) :
    0 ≤ sessionScore recs ∧ sessionScore recs ≤ 1 ∧ sessionScore [] = 0 := by
  refine ⟨?_, ?_, rfl⟩
  · simp only [sessionScore]
    split
    · norm_num
    · exact div_nonneg
        (list_sum_nonneg_of_mem _ _ (fun x _ => devicePoints_nonneg recs x))
        (Nat.cast_nonneg _)
  · simp only [sessionScore]
    split
    · norm_num
    · rename_i hne
      have hpos : (0 : ℚ) < ((deviceLabels recs).length : ℚ) := by
        exact_mod_cast Nat.pos_of_ne_zero hne
      rw [div_le_one hpos]
      exact list_sum_le_length _ _ (fun x _ => devicePoints_le_one recs x)

/-- C10: whitespace-only input trims to empty and is rejected by both the
submit validation and the results handler; when a submission does proceed,
the only submission request carries exactly the trimmed session id and
device label, and the results query uses the trimmed session id. -/
theorem C10_trim_semantics (rawW rawSession rawDevice : String) (hh : Option String)
    (submitErr : Option String)
    (hw : rawW.data.all jsWhitespaceChar = true)
    (hs : jsTrim rawSession ≠ "") (hd : jsTrim rawDevice ≠ "") :
    validateInputs rawW rawDevice = .failure "Please enter a Session ID" ∧
    handleResults rawW = [.showErrorR "Please enter a Session ID first"] ∧
    (∀ sid dl oh, Action.submitRequest sid dl oh ∈
        handleSubmit false rawSession rawDevice true (.ok hh) submitErr →
        sid = jsTrim rawSession ∧ dl = jsTrim rawDevice ∧ oh = hh) ∧
    Action.submitRequest (jsTrim rawSession) (jsTrim rawDevice) hh ∈
      handleSubmit false rawSession rawDevice true (.ok hh) submitErr ∧
    handleResults rawSession = [.fetchResultsReq (jsTrim rawSession)] := by
  have hempty : jsTrim rawW = "" := jsTrim_eq_empty rawW hw
  refine ⟨by simp [validateInputs, hempty], by simp [handleResults, hempty], ?_, ?_, ?_⟩
  · intro sid dl oh hmem
    cases submitErr with
    | none =>
        simp [handleSubmit, validateInputs, hs, hd] at hmem
        exact ⟨hmem.1, hmem.2.1, hmem.2.2⟩
    | some m =>
        simp [handleSubmit, validateInputs, hs, hd] at hmem
        exact ⟨hmem.1, hmem.2.1, hmem.2.2⟩
  · cases submitErr with
    | none => simp [handleSubmit, validateInputs, hs, hd]
    | some m => simp [handleSubmit, validateInputs, hs, hd]
  · simp [handleResults, hs]

/-- C10 witness: concrete padded inputs are trimmed before validation,
submission and querying. -/
theorem C10_trim_semantics_witness :
    validateInputs " " " dev " = .failure "Please enter a Session ID" ∧
    Action.submitRequest (jsTrim " sid ") (jsTrim " dev ") (some "h") ∈
      handleSubmit false " sid " " dev " true (.ok (some "h")) none ∧
    handleResults " sid " = [.fetchResultsReq (jsTrim " sid ")] := by
  have h := C10_trim_semantics " " " sid " " dev " (some "h") none
    (by decide) (by decide) (by decide)
  exact ⟨h.1, h.2.2.2.1, h.2.2.2.2⟩

end DfpProxy
